import Mathlib

set_option maxRecDepth 20000
set_option linter.unusedVariables false

/-!
A shallow embedding of the KickStart agent for GitHub: the tool layer
(`github_tools.py`), the FastAPI front end (`api.py`) and the Streamlit
goal templates (`app.py`), together with proofs of the specified
behaviour of each component.

Remote GitHub calls are modelled in two complementary ways, matching how
each claim speaks about them:
* calls whose outcome the repository state determines (file lookups,
  file writes) act on an explicit repository state with GitHub's
  success/failure semantics;
* calls whose outcome is opaque to the program (listing the user's
  repositories, opening a pull request, fetching an issue) are passed in
  as an `Except`-valued response, so theorems quantify over every
  possible remote outcome.
Every tool also returns the ordered trace of remote calls it issued, so
that "no remote call happens" is a statement about the code, not about
the model.
-/

namespace GithubTools

/-- One element of a recursive git tree: `element.path` and
`element.type` (`"blob"` for a file, `"tree"` for a directory). -/
structure TreeElement where
  path : String
  type : String
  deriving DecidableEq

/-- A file on a repository's default branch, as `repo.get_contents`
returns it: its path, blob sha and (decoded) content. -/
structure ContentFile where
  path : String
  sha : String
  content : String
  deriving DecidableEq

/-- A repository object as `client.get_repo(repo_name)` returns it:
its default branch, the files on that branch and the branch's
recursive git tree. -/
structure Repo where
  full_name : String
  default_branch : String
  files : List ContentFile
  tree : List TreeElement
  deriving DecidableEq

/-- A repository descriptor from `client.get_user().get_repos()`;
the tools only read `repo.full_name`. -/
structure Repository where
  full_name : String
  deriving DecidableEq

/-- A pull request as `repo.create_pull` returns it. -/
structure PullRequest where
  number : Nat
  html_url : String
  deriving DecidableEq

/-- An issue as `repo.get_issue` returns it. -/
structure Issue where
  title : String
  body : String
  deriving DecidableEq

/-- A branch as `repo.get_branch` returns it. -/
structure Branch where
  commit_sha : String
  deriving DecidableEq

/-- The remote GitHub API calls a tool can issue, recorded in order. -/
inductive RemoteCall where
  | getUserRepos
  | getRepo (repo_name : String)
  | getGitTree (ref : String)
  | getContents (path : String)
  | updateFile (path : String)
  | createFile (path : String)
  | deleteFile (path : String)
  | getBranch (branch : String)
  | createGitRef (ref : String)
  | createPull (head : String) (base : String)
  | getIssue (number : Nat)
  deriving DecidableEq

/-- `_init_client_from_env`: builds a client from the `GITHUB_PAT`
environment variable when it holds a truthy (non-empty) token. The
client is identified with the token it wraps. -/
def _init_client_from_env (env_pat : Option String) : Option String :=
  match env_pat with
  | some token => if token = "" then none else some token
  | none => none

/-- `_ensure_client`: returns the global client, re-initialising it from
the environment when it is `None`; raises `RuntimeError` (modelled as
`.error`) when no client can be obtained. -/
def _ensure_client (github_client : Option String) (env_pat : Option String) :
    Except String String :=
  match github_client with
  | some c => .ok c
  | none =>
    match _init_client_from_env env_pat with
    | some c => .ok c
    | none => .error "GitHub token not configured. Please set a token to continue."

/-- `set_github_token`: a truthy token sets `GITHUB_PAT` and installs a
client; `None` (or the falsy `""`) clears both. Returns the new pair
(global client, `GITHUB_PAT`). -/
def set_github_token (token : Option String) : Option String × Option String :=
  match token with
  | some t => if t = "" then (none, none) else (some t, some t)
  | none => (none, none)

namespace Remote

/-- `repo.get_contents(path, ref=default_branch)`: the file at `path`
on the branch, raising (`.error`, GitHub's 404) when none exists. -/
def get_contents (files : List ContentFile) (file_path : String) :
    Except String ContentFile :=
  match files.find? (fun f => f.path == file_path) with
  | some f => .ok f
  | none => .error ("404 Not Found: " ++ file_path)

/-- `repo.update_file`: rewrites the file at `path` when one exists and
the given `sha` matches its blob sha; raises otherwise. -/
def update_file (files : List ContentFile) (path message content sha branch : String) :
    Except String (List ContentFile) :=
  match files.find? (fun f => f.path == path) with
  | some f =>
    if f.sha == sha then
      .ok (files.map (fun g => if g.path == path then { g with content := content } else g))
    else .error ("409 Conflict: sha mismatch for " ++ path)
  | none => .error ("404 Not Found: " ++ path)

/-- `repo.create_file`: creates a file at `path` when none exists there;
raises (GitHub's 422) when one does. -/
def create_file (files : List ContentFile) (path message content branch : String) :
    Except String (List ContentFile) :=
  match files.find? (fun f => f.path == path) with
  | some _ => .error ("422 Unprocessable: " ++ path ++ " already exists")
  | none => .ok (files ++ [{ path := path, sha := "blob:" ++ path, content := content }])

end Remote

/-- The `list_my_repositories` tool. `get_repos` is the remote response
of `client.get_user().get_repos()`. Returns the tool's result together
with the trace of remote calls issued; the Python `except` never lets an
exception escape, which the total return type makes literal. -/
def list_my_repositories (github_client env_pat : Option String)
    (get_repos : Except String (List Repository)) :
    List String × List RemoteCall :=
  match _ensure_client github_client env_pat with
  | .error e => (["Error listing repositories: " ++ e], [])
  | .ok _ =>
    match get_repos with
    | .ok repos => (repos.map (fun repo => repo.full_name), [.getUserRepos])
    | .error e => (["Error listing repositories: " ++ e], [.getUserRepos])

/-- The `list_repository_files` tool: fetches the repository, walks the
default branch's recursive tree, keeps the blob entries in order and
joins their paths with the two-character separator `"\\n"` exactly as the
Python source (`"\\n".join(files)`) does. -/
def list_repository_files (github_client env_pat : Option String)
    (get_repo : Except String Repo) (repo_name : String) :
    String × List RemoteCall :=
  match _ensure_client github_client env_pat with
  | .error e => ("Error listing files: " ++ e, [])
  | .ok _ =>
    match get_repo with
    | .error e => ("Error listing files: " ++ e, [.getRepo repo_name])
    | .ok repo =>
      let files := (repo.tree.filter (fun element => element.type == "blob")).map
        (fun element => element.path)
      ("\\n".intercalate files, [.getRepo repo_name, .getGitTree repo.default_branch])

/-- The `read_file` tool. -/
def read_file (github_client env_pat : Option String)
    (get_repo : Except String Repo) (repo_name file_path : String) :
    String × List RemoteCall :=
  match _ensure_client github_client env_pat with
  | .error e => ("Error reading file: " ++ e, [])
  | .ok _ =>
    match get_repo with
    | .error e => ("Error reading file: " ++ e, [.getRepo repo_name])
    | .ok repo =>
      match Remote.get_contents repo.files file_path with
      | .ok file_content =>
        (file_content.content, [.getRepo repo_name, .getContents file_path])
      | .error e =>
        ("Error reading file: " ++ e, [.getRepo repo_name, .getContents file_path])

/-- The `create_or_update_file` tool, with the source's two-level
`try`/`except`: the inner lookup-and-update is attempted first, and any
failure inside it (a missing file, but also a failed update) falls into
the `except` branch that attempts `create_file`; failures of the create
attempt are reported by the outer handler. -/
def create_or_update_file (github_client env_pat : Option String)
    (get_repo : Except String Repo)
    (repo_name file_path content commit_message : String) :
    String × List RemoteCall :=
  match _ensure_client github_client env_pat with
  | .error e => ("Error creating or updating file: " ++ e, [])
  | .ok _ =>
    match get_repo with
    | .error e => ("Error creating or updating file: " ++ e, [.getRepo repo_name])
    | .ok repo =>
      match Remote.get_contents repo.files file_path with
      | .ok existing_file =>
        match Remote.update_file repo.files existing_file.path commit_message content
            existing_file.sha repo.default_branch with
        | .ok _ =>
          ("Successfully updated file '" ++ file_path ++ "'.",
           [.getRepo repo_name, .getContents file_path, .updateFile existing_file.path])
        | .error _ =>
          match Remote.create_file repo.files file_path commit_message content
              repo.default_branch with
          | .ok _ =>
            ("Successfully created file '" ++ file_path ++ "'.",
             [.getRepo repo_name, .getContents file_path,
              .updateFile existing_file.path, .createFile file_path])
          | .error e =>
            ("Error creating or updating file: " ++ e,
             [.getRepo repo_name, .getContents file_path,
              .updateFile existing_file.path, .createFile file_path])
      | .error _ =>
        match Remote.create_file repo.files file_path commit_message content
            repo.default_branch with
        | .ok _ =>
          ("Successfully created file '" ++ file_path ++ "'.",
           [.getRepo repo_name, .getContents file_path, .createFile file_path])
        | .error e =>
          ("Error creating or updating file: " ++ e,
           [.getRepo repo_name, .getContents file_path, .createFile file_path])

/-- The `delete_file` tool: looks the file up, then deletes it by path
and sha (which the lookup guarantees to match, so the remote delete
succeeds on the modelled state). -/
def delete_file (github_client env_pat : Option String)
    (get_repo : Except String Repo) (repo_name file_path commit_message : String) :
    String × List RemoteCall :=
  match _ensure_client github_client env_pat with
  | .error e => ("Error deleting file: " ++ e, [])
  | .ok _ =>
    match get_repo with
    | .error e => ("Error deleting file: " ++ e, [.getRepo repo_name])
    | .ok repo =>
      match Remote.get_contents repo.files file_path with
      | .ok file =>
        ("Successfully deleted file '" ++ file_path ++ "'.",
         [.getRepo repo_name, .getContents file_path, .deleteFile file.path])
      | .error e =>
        ("Error deleting file: " ++ e, [.getRepo repo_name, .getContents file_path])

/-- The `create_branch` tool. `get_branch` and `create_git_ref` are the
remote responses of the two calls it makes after fetching the repo. -/
def create_branch (github_client env_pat : Option String)
    (get_repo : Except String Repo) (get_branch : Except String Branch)
    (create_git_ref : Except String Unit) (repo_name branch_name : String) :
    String × List RemoteCall :=
  match _ensure_client github_client env_pat with
  | .error e => ("Error creating branch: " ++ e, [])
  | .ok _ =>
    match get_repo with
    | .error e => ("Error creating branch: " ++ e, [.getRepo repo_name])
    | .ok repo =>
      match get_branch with
      | .error e =>
        ("Error creating branch: " ++ e, [.getRepo repo_name, .getBranch repo.default_branch])
      | .ok _ =>
        match create_git_ref with
        | .ok _ =>
          ("Successfully created branch '" ++ branch_name ++ "'.",
           [.getRepo repo_name, .getBranch repo.default_branch,
            .createGitRef ("refs/heads/" ++ branch_name)])
        | .error e =>
          ("Error creating branch: " ++ e,
           [.getRepo repo_name, .getBranch repo.default_branch,
            .createGitRef ("refs/heads/" ++ branch_name)])

/-- The `create_pull_request` tool: opens a PR from `head_branch` into
the default branch. `create_pull` is the remote response of
`repo.create_pull` (an `.error` covers every remote failure, a head
branch that does not exist included). The total return type makes "never
raises" literal. -/
def create_pull_request (github_client env_pat : Option String)
    (get_repo : Except String Repo) (create_pull : Except String PullRequest)
    (repo_name title body head_branch : String) :
    String × List RemoteCall :=
  match _ensure_client github_client env_pat with
  | .error e => ("Error creating pull request: " ++ e, [])
  | .ok _ =>
    match get_repo with
    | .error e => ("Error creating pull request: " ++ e, [.getRepo repo_name])
    | .ok repo =>
      match create_pull with
      | .ok pr =>
        ("Successfully created Pull Request #" ++ toString pr.number ++ ": " ++ pr.html_url,
         [.getRepo repo_name, .createPull head_branch repo.default_branch])
      | .error e =>
        ("Error creating pull request: " ++ e,
         [.getRepo repo_name, .createPull head_branch repo.default_branch])

/-- The `get_issue_details` tool (the source formats its result with the
same literal `"\\n"` two-character separator as `list_repository_files`). -/
def get_issue_details (github_client env_pat : Option String)
    (get_repo : Except String Repo) (get_issue : Except String Issue)
    (repo_name : String) (issue_number : Nat) :
    String × List RemoteCall :=
  match _ensure_client github_client env_pat with
  | .error e => ("Error getting issue details: " ++ e, [])
  | .ok _ =>
    match get_repo with
    | .error e => ("Error getting issue details: " ++ e, [.getRepo repo_name])
    | .ok _ =>
      match get_issue with
      | .ok issue =>
        ("Issue Title: " ++ issue.title ++ "\\nIssue Body: " ++ issue.body,
         [.getRepo repo_name, .getIssue issue_number])
      | .error e =>
        ("Error getting issue details: " ++ e, [.getRepo repo_name, .getIssue issue_number])

end GithubTools

namespace Api

/-- The session store `user_sessions`: a dict from session id to the
stored access token, which may itself be `None` (stored as `none`). -/
def Sessions : Type := List (String × Option String)

/-- `user_sessions.get(session_id)`: `none` both when the id is absent
and when the stored value is `None` (Python's `.get` default). -/
def sessions_get : List (String × Option String) → String → Option String
  | [], _ => none
  | (k, v) :: rest, sid => if k == sid then v else sessions_get rest sid

/-- `session_id in user_sessions`: key membership, regardless of the
stored value. -/
def sessions_contains : List (String × Option String) → String → Bool
  | [], _ => false
  | (k, _) :: rest, sid => k == sid || sessions_contains rest sid

/-- `user_sessions[session_id] = tok`: dict assignment — overwrites the
entry in place when the key exists, appends a new entry otherwise. -/
def sessions_set : List (String × Option String) → String → Option String →
    List (String × Option String)
  | [], sid, tok => [(sid, tok)]
  | (k, v) :: rest, sid, tok =>
    if k == sid then (k, tok) :: rest else (k, v) :: sessions_set rest sid tok

/-- `del user_sessions[session_id]`: removes the entry for the id (dict
keys are unique, so removing every matching entry is the same thing). -/
def sessions_del : List (String × Option String) → String →
    List (String × Option String)
  | [], _ => []
  | (k, v) :: rest, sid =>
    if k == sid then sessions_del rest sid else (k, v) :: sessions_del rest sid

/-- Observer for frame reasoning: the store's entry for an id —
`none` when the id is absent, `some v` when the dict maps the id to `v`
(where `v` may itself be the stored `None`). -/
def sessions_entry : List (String × Option String) → String → Option (Option String)
  | [], _ => none
  | (k, v) :: rest, sid => if k == sid then some v else sessions_entry rest sid

/-- `fastapi.HTTPException`, as `get_github_client` raises it. -/
structure HTTPException where
  status_code : Nat
  detail : String
  deriving DecidableEq

/-- `get_github_client`: resolves the session's access token and wraps
it in a client (identified with the token); raises `HTTPException(401)`
when the store yields no truthy token — an absent id, a stored `None`
and a stored empty string all fail alike. -/
def get_github_client (user_sessions : List (String × Option String))
    (session_id : String) : Except HTTPException String :=
  match sessions_get user_sessions session_id with
  | some access_token =>
    if access_token == "" then
      .error { status_code := 401, detail := "User not authenticated." }
    else .ok access_token
  | none => .error { status_code := 401, detail := "User not authenticated." }

/-- `GET /callback`: after the token exchange (whose parsed
`access_token` field is the argument, `none` when the response carries
no token), a fresh random session id is generated, the token — present
or not — is stored under it, and the browser is redirected. Returns the
redirect target and the new store. -/
def github_callback (user_sessions : List (String × Option String))
    (session_id : String) (access_token : Option String) :
    String × List (String × Option String) :=
  ("http://localhost:8501?session_id=" ++ session_id,
   sessions_set user_sessions session_id access_token)

/-- A `{"status": ..., "message": ...}` JSON body. -/
structure StatusBody where
  status : String
  message : String
  deriving DecidableEq

/-- `POST /logout`: deletes the session when it exists and reports
success, reports an error otherwise. Returns the body and the store the
endpoint leaves behind. -/
def logout (user_sessions : List (String × Option String)) (session_id : String) :
    StatusBody × List (String × Option String) :=
  if sessions_contains user_sessions session_id then
    ({ status := "success", message := "Logged out successfully." },
     sessions_del user_sessions session_id)
  else
    ({ status := "error", message := "Session not found." }, user_sessions)

/-- An HTTP response from a FastAPI endpoint: a returned JSON body is
sent with status 200; an uncaught `HTTPException` would be sent with its
own status code. `message` is `""` and `repos` is `[]` when the body has
no such field. -/
structure Response where
  http_status : Nat
  status : String
  message : String
  repos : List String
  deriving DecidableEq

/-- `POST /user/repos`: the broad `except Exception` catches the 401
`HTTPException` from `get_github_client` as well as remote failures, and
in both cases the endpoint returns a JSON error body — with HTTP status
200, since nothing is re-raised. `get_repos` is the remote response of
`github_client.get_user().get_repos()`. -/
def get_user_repos (user_sessions : List (String × Option String))
    (session_id : String)
    (get_repos : Except String (List GithubTools.Repository)) : Response :=
  match get_github_client user_sessions session_id with
  | .error e =>
    { http_status := 200, status := "error",
      message := toString e.status_code ++ ": " ++ e.detail, repos := [] }
  | .ok _ =>
    match get_repos with
    | .ok repos =>
      { http_status := 200, status := "success", message := "",
        repos := repos.map (fun repo => repo.full_name) }
    | .error e =>
      { http_status := 200, status := "error", message := e, repos := [] }

/-- `run_agent`: invokes the agent executor on the goal and returns its
output; its own `except Exception` turns any raise into an error
description, so `run_agent` never raises. `invoke` is the outcome of the
agent run. -/
def run_agent (goal : String) (invoke : Except String String) : String :=
  match invoke with
  | .ok output => output
  | .error e => "An error occurred: " ++ e

/-- `POST /run-agent`: resolves the client first; `except HTTPException`
catches the 401 and returns a JSON error body carrying its detail — with
HTTP status 200, since nothing is re-raised. -/
def run_agent_endpoint (user_sessions : List (String × Option String))
    (session_id goal : String) (invoke : Except String String) : Response :=
  match get_github_client user_sessions session_id with
  | .error e =>
    { http_status := 200, status := "error", message := e.detail, repos := [] }
  | .ok _ =>
    { http_status := 200, status := "success",
      message := run_agent goal invoke, repos := [] }

end Api

namespace App

/-- The goal template the Streamlit app builds for the "Debug and Fix an
Issue" task (`app.py`), with the issue number, selected repository and
the optional user guidance (`'None provided.'` when the guidance text is
falsy) interpolated exactly where the f-string interpolates them. -/
def debug_goal (issue_number : Nat) (selected_repo user_guidance : String) : String :=
  "\n                You are an expert AI software developer. Your task is to debug and fix " ++
  (("issue #" ++ toString issue_number) ++
  (" in the repo '" ++
  (selected_repo ++
  ("'.\n                User guidance: '" ++
  ((if user_guidance != "" then user_guidance else "None provided.") ++
  ("'\n\n                Follow these steps precisely:\n                1. **Understand the Bug:** Use the `get_issue_details` tool for " ++
  (("issue #" ++ toString issue_number) ++
  (" to understand the problem.\n                2. **Create a Branch:** Create a new branch named exactly '" ++
  (("fix/issue-" ++ toString issue_number) ++
  ("'.\n                3. **Explore the Code:** Use `list_repository_files` to see the repository structure. Based on the issue details and user guidance, use `read_file` to examine the contents of the most relevant file(s).\n                4. **Implement the Fix:** Once you have analyzed the code, use the `create_or_update_file` tool to apply the necessary code changes to the relevant file. The commit message for this change MUST be '" ++
  (("fix: Resolve issue #" ++ toString issue_number) ++
  ("'.\n                5. **Create a Pull Request:** After committing the fix, create a pull request to merge the '" ++
  (("fix/issue-" ++ toString issue_number) ++
  ("' branch into the main branch. The title of the pull request MUST be '" ++
  (("Fix: Resolve issue #" ++ toString issue_number) ++
  "'.\n                6. **Final Answer:** Your final answer must be a confirmation message stating that the pull request has been created, including the PR number and URL. If you fail at any step, provide a clear reason for the failure.\n                ")))))))))))))))

end App

/-! ### Helper lemmas about string containment -/

/-- A pattern occurring in the right factor occurs in the appended string. -/
theorem infix_data_append_right (x t : String) (p : List Char)
    (h : List.IsInfix p t.data) : List.IsInfix p (x ++ t).data := by
  rw [String.data_append]
  exact h.trans (List.suffix_append x.data t.data).isInfix

/-- A pattern occurring in the left factor occurs in the appended string. -/
theorem infix_data_append_left (a b : String) (p : List Char)
    (h : List.IsInfix p a.data) : List.IsInfix p (a ++ b).data := by
  rw [String.data_append]
  exact h.trans ⟨[], b.data, rfl⟩

/-- A prefix of a string is a prefix of any right extension of it. -/
theorem isPrefix_data_mono (p a b : String) (h : List.IsPrefix p.data a.data) :
    List.IsPrefix p.data (a ++ b).data := by
  rw [String.data_append]
  exact h.trans ⟨b.data, rfl⟩

/-! ### C8 — the debug-task goal template -/

/-- C8: for the debug task with issue number 42 and no user guidance,
the generated goal string contains the literal substrings "issue #42",
"fix/issue-42" and "fix: Resolve issue #42", whichever repository is
selected. -/
theorem claim_C8_debug_goal_substrings (selected_repo : String) :
    List.IsInfix "issue #42".data (App.debug_goal 42 selected_repo "").data ∧
    List.IsInfix "fix/issue-42".data (App.debug_goal 42 selected_repo "").data ∧
    List.IsInfix "fix: Resolve issue #42".data (App.debug_goal 42 selected_repo "").data := by
  unfold App.debug_goal
  refine ⟨?_, ?_, ?_⟩
  · iterate 1 apply infix_data_append_right
    apply infix_data_append_left
    decide
  · iterate 9 apply infix_data_append_right
    apply infix_data_append_left
    decide
  · iterate 11 apply infix_data_append_right
    apply infix_data_append_left
    decide


/-! ### Helper lemmas about the session store -/

namespace Api

/-- An id the store does not contain resolves to no token. -/
theorem sessions_get_of_contains_false (s : List (String × Option String))
    (sid : String) (h : sessions_contains s sid = false) :
    sessions_get s sid = none := by
  induction s with
  | nil => rfl
  | cons kv rest ih =>
    obtain ⟨k, v⟩ := kv
    simp only [sessions_contains, Bool.or_eq_false_iff] at h
    simp [sessions_get, h.1, ih h.2]

/-- Storing under an id makes exactly that value the one the id yields. -/
theorem sessions_get_set (s : List (String × Option String)) (sid : String)
    (tok : Option String) : sessions_get (sessions_set s sid tok) sid = tok := by
  induction s with
  | nil => simp [sessions_set, sessions_get]
  | cons kv rest ih =>
    obtain ⟨k, v⟩ := kv
    by_cases hk : k = sid
    · simp [sessions_set, sessions_get, hk]
    · simp [sessions_set, sessions_get, hk, ih]

/-- Storing under an id makes the store contain it. -/
theorem sessions_contains_set (s : List (String × Option String)) (sid : String)
    (tok : Option String) : sessions_contains (sessions_set s sid tok) sid = true := by
  induction s with
  | nil => simp [sessions_set, sessions_contains]
  | cons kv rest ih =>
    obtain ⟨k, v⟩ := kv
    by_cases hk : k = sid
    · simp [sessions_set, sessions_contains, hk]
    · simp [sessions_set, sessions_contains, hk, ih]

/-- Deletion removes the entry for the deleted id. -/
theorem sessions_entry_del_self (s : List (String × Option String)) (sid : String) :
    sessions_entry (sessions_del s sid) sid = none := by
  induction s with
  | nil => rfl
  | cons kv rest ih =>
    obtain ⟨k, v⟩ := kv
    by_cases hk : k = sid
    · simp [sessions_del, hk, ih]
    · simp [sessions_del, sessions_entry, hk, ih]

/-- Deletion leaves every other id's entry unchanged. -/
theorem sessions_entry_del_other (s : List (String × Option String))
    (sid k : String) (hk : k ≠ sid) :
    sessions_entry (sessions_del s sid) k = sessions_entry s k := by
  induction s with
  | nil => rfl
  | cons kv rest ih =>
    obtain ⟨k', v⟩ := kv
    by_cases hk' : k' = sid
    · subst hk'
      have hsk : ¬ (k' = k) := fun h => hk h.symm
      simp [sessions_del, sessions_entry, hsk, ih]
    · by_cases hkk : k' = k
      · subst hkk
        simp [sessions_del, sessions_entry, hk']
      · simp [sessions_del, sessions_entry, hk', hkk, ih]

/-- Deletion never removes an id other than the deleted one. -/
theorem sessions_contains_del_self (s : List (String × Option String)) (sid : String) :
    sessions_contains (sessions_del s sid) sid = false := by
  induction s with
  | nil => rfl
  | cons kv rest ih =>
    obtain ⟨k, v⟩ := kv
    by_cases hk : k = sid
    · simp [sessions_del, hk, ih]
    · simp [sessions_del, sessions_contains, hk, ih]

end Api

/-! ### C1 — the write-file tool creates or updates, never both -/

/-- C1: with a working client and an existing repository, a call to
`create_or_update_file` returns the "created" message exactly when no
file exists at the path, the "updated" message exactly when one does,
and the two messages are distinct strings, so no call returns both. -/
theorem claim_C1_write_file_created_xor_updated
    (github_client env_pat : Option String) (tok : String)
    (hclient : GithubTools._ensure_client github_client env_pat = .ok tok)
    (repo : GithubTools.Repo) (repo_name file_path content commit_message : String) :
    (repo.files.find? (fun f => f.path == file_path) = none →
      (GithubTools.create_or_update_file github_client env_pat (.ok repo)
        repo_name file_path content commit_message).fst =
        "Successfully created file '" ++ file_path ++ "'.") ∧
    (∀ f, repo.files.find? (fun g => g.path == file_path) = some f →
      (GithubTools.create_or_update_file github_client env_pat (.ok repo)
        repo_name file_path content commit_message).fst =
        "Successfully updated file '" ++ file_path ++ "'.") ∧
    ("Successfully created file '" ++ file_path ++ "'." ≠
      "Successfully updated file '" ++ file_path ++ "'.") := by
  refine ⟨?_, ?_, ?_⟩
  · intro h
    simp [GithubTools.create_or_update_file, hclient, GithubTools.Remote.get_contents,
      GithubTools.Remote.create_file, h]
  · intro f hf
    have hfp : f.path = file_path := by
      have := List.find?_some hf
      simpa using this
    simp [GithubTools.create_or_update_file, hclient, GithubTools.Remote.get_contents,
      GithubTools.Remote.update_file, hf, hfp]
  · intro heq
    have hd : "Successfully created file '".data ++ (file_path.data ++ "'.".data) =
        "Successfully updated file '".data ++ (file_path.data ++ "'.".data) := by
      simpa [String.data_append, List.append_assoc] using congrArg String.data heq
    have := (List.append_inj hd (by decide)).1
    exact absurd this (by decide)

/-- C1 witness: a concrete call on a repository without the file returns
the "created" message. -/
theorem claim_C1_witness :
    (GithubTools.create_or_update_file (some "token") none
      (.ok { full_name := "o/r", default_branch := "main", files := [], tree := [] })
      "o/r" "new.py" "pass" "feat: add").fst =
      "Successfully created file '" ++ "new.py" ++ "'." :=
  (claim_C1_write_file_created_xor_updated (some "token") none "token" rfl
    { full_name := "o/r", default_branch := "main", files := [], tree := [] }
    "o/r" "new.py" "pass" "feat: add").1 rfl

/-! ### C2 — the list-files tool and its separator -/

/-- C2 (code bug): on a default-branch tree holding the blobs `a.py`,
`b.py` and a `docs` tree entry, `list_repository_files` keeps exactly
the blob paths in tree order but joins them with the two-character
sequence `\`+`n` (the Python source reads `"\\n".join(files)`), so the
result is `a.py\nb.py` spelled with a literal backslash: it differs from
the newline-joined listing and contains no newline character at all. -/
theorem claim_C2_list_files_backslash_join :
    (GithubTools.list_repository_files (some "token") none
      (.ok { full_name := "o/r", default_branch := "main", files := [],
             tree := [{ path := "a.py", type := "blob" },
                      { path := "docs", type := "tree" },
                      { path := "b.py", type := "blob" }] }) "o/r").fst =
      "a.py\\nb.py" ∧
    ("a.py\\nb.py" : String) ≠ "a.py\nb.py" ∧
    ('\n' ∈ ("a.py\\nb.py" : String).data) = False := by
  refine ⟨by rfl, by decide, by simp⟩

/-! ### C3 — session credential resolution -/

/-- C3: a session id the store does not contain resolves to the 401
Unauthenticated error; after a (non-empty) token is stored for the id,
resolving yields exactly that token; after `None` is then stored for the
same id, resolving fails with the 401 error again. -/
theorem claim_C3_resolve_follows_store
    (user_sessions : List (String × Option String)) (session_id token : String)
    (htok : token ≠ "")
    (habsent : Api.sessions_contains user_sessions session_id = false) :
    Api.get_github_client user_sessions session_id =
      .error { status_code := 401, detail := "User not authenticated." } ∧
    Api.get_github_client (Api.sessions_set user_sessions session_id (some token))
      session_id = .ok token ∧
    Api.get_github_client
      (Api.sessions_set (Api.sessions_set user_sessions session_id (some token))
        session_id none) session_id =
      .error { status_code := 401, detail := "User not authenticated." } := by
  refine ⟨?_, ?_, ?_⟩
  · simp [Api.get_github_client, Api.sessions_get_of_contains_false _ _ habsent]
  · simp [Api.get_github_client, Api.sessions_get_set, htok]
  · simp [Api.get_github_client, Api.sessions_get_set]

/-- C3 witness: the three resolution facts at a concrete store, id and
token. -/
theorem claim_C3_witness :
    Api.get_github_client [("other", some "x")] "sid" =
      .error { status_code := 401, detail := "User not authenticated." } ∧
    Api.get_github_client (Api.sessions_set [("other", some "x")] "sid" (some "tok"))
      "sid" = .ok "tok" ∧
    Api.get_github_client
      (Api.sessions_set (Api.sessions_set [("other", some "x")] "sid" (some "tok"))
        "sid" none) "sid" =
      .error { status_code := 401, detail := "User not authenticated." } :=
  claim_C3_resolve_follows_store [("other", some "x")] "sid" "tok"
    (by decide) (by decide)

/-! ### C4 — how the Unauthenticated failure reaches the caller -/

/-- C4 counterexample: with an empty session store (so the session id is
unauthenticated), `POST /run-agent` and `POST /user/repos` answer with
HTTP status 200, not 401 — the endpoints catch the `HTTPException` and
return a plain JSON body, which FastAPI sends with status 200. -/
theorem claim_C4_counterexample :
    (Api.run_agent_endpoint [] "sid" "goal" (.ok "output")).http_status = 200 ∧
    (Api.run_agent_endpoint [] "sid" "goal" (.ok "output")).http_status ≠ 401 ∧
    (Api.get_user_repos [] "sid" (.ok [])).http_status = 200 ∧
    (Api.get_user_repos [] "sid" (.ok [])).http_status ≠ 401 := by
  refine ⟨rfl, by decide, rfl, by decide⟩

/-- C4 amended: for every request whose session id resolves to the 401
Unauthenticated `HTTPException`, `POST /run-agent` and `POST /user/repos`
catch it and immediately return a structured JSON failure body (status
field `"error"` carrying the 401 detail) — delivered with HTTP status
200, not 401. -/
theorem claim_C4_unauthenticated_structured_200
    (user_sessions : List (String × Option String)) (session_id goal : String)
    (invoke : Except String String)
    (get_repos : Except String (List GithubTools.Repository))
    (e : Api.HTTPException)
    (h : Api.get_github_client user_sessions session_id = .error e) :
    Api.run_agent_endpoint user_sessions session_id goal invoke =
      { http_status := 200, status := "error", message := e.detail, repos := [] } ∧
    Api.get_user_repos user_sessions session_id get_repos =
      { http_status := 200, status := "error",
        message := toString e.status_code ++ ": " ++ e.detail, repos := [] } := by
  constructor
  · simp [Api.run_agent_endpoint, h]
  · simp [Api.get_user_repos, h]

/-- C4 witness: the amended behaviour at the empty store. -/
theorem claim_C4_witness :
    Api.run_agent_endpoint [] "sid" "goal" (.ok "output") =
      { http_status := 200, status := "error",
        message := "User not authenticated.", repos := [] } ∧
    Api.get_user_repos [] "sid" (.ok []) =
      { http_status := 200, status := "error",
        message := toString (401 : Nat) ++ ": " ++ "User not authenticated.",
        repos := [] } :=
  claim_C4_unauthenticated_structured_200 [] "sid" "goal" (.ok "output") (.ok [])
    { status_code := 401, detail := "User not authenticated." } rfl

/-! ### C5 — no tool issues a remote call without a credential -/

/-- C5: when no client is configured (no global client and no usable
`GITHUB_PAT` in the environment), every tool invocation returns the
authentication-error result of `_ensure_client`'s raise and its remote
call trace is empty: the check fires before any remote call. -/
theorem claim_C5_no_credential_no_remote_call
    (env_pat : Option String)
    (henv : GithubTools._init_client_from_env env_pat = none) :
    (∀ get_repos, GithubTools.list_my_repositories none env_pat get_repos =
      (["Error listing repositories: GitHub token not configured. Please set a token to continue."],
       [])) ∧
    (∀ get_repo repo_name,
      GithubTools.list_repository_files none env_pat get_repo repo_name =
      ("Error listing files: GitHub token not configured. Please set a token to continue.",
       [])) ∧
    (∀ get_repo repo_name file_path,
      GithubTools.read_file none env_pat get_repo repo_name file_path =
      ("Error reading file: GitHub token not configured. Please set a token to continue.",
       [])) ∧
    (∀ get_repo repo_name file_path content commit_message,
      GithubTools.create_or_update_file none env_pat get_repo repo_name file_path
        content commit_message =
      ("Error creating or updating file: GitHub token not configured. Please set a token to continue.",
       [])) ∧
    (∀ get_repo repo_name file_path commit_message,
      GithubTools.delete_file none env_pat get_repo repo_name file_path commit_message =
      ("Error deleting file: GitHub token not configured. Please set a token to continue.",
       [])) ∧
    (∀ get_repo get_branch create_git_ref repo_name branch_name,
      GithubTools.create_branch none env_pat get_repo get_branch create_git_ref
        repo_name branch_name =
      ("Error creating branch: GitHub token not configured. Please set a token to continue.",
       [])) ∧
    (∀ get_repo create_pull repo_name title body head_branch,
      GithubTools.create_pull_request none env_pat get_repo create_pull repo_name
        title body head_branch =
      ("Error creating pull request: GitHub token not configured. Please set a token to continue.",
       [])) ∧
    (∀ get_repo get_issue repo_name issue_number,
      GithubTools.get_issue_details none env_pat get_repo get_issue repo_name
        issue_number =
      ("Error getting issue details: GitHub token not configured. Please set a token to continue.",
       [])) := by
  refine ⟨?_, ?_, ?_, ?_, ?_, ?_, ?_, ?_⟩ <;> intros <;>
    simp [GithubTools.list_my_repositories, GithubTools.list_repository_files,
      GithubTools.read_file, GithubTools.create_or_update_file,
      GithubTools.delete_file, GithubTools.create_branch,
      GithubTools.create_pull_request, GithubTools.get_issue_details,
      GithubTools._ensure_client, henv]

/-- C5 witness: with no client and an empty environment, a concrete
`list_my_repositories` invocation returns the authentication error and
an empty remote-call trace. -/
theorem claim_C5_witness :
    GithubTools.list_my_repositories none none (.ok []) =
      (["Error listing repositories: GitHub token not configured. Please set a token to continue."],
       []) :=
  (claim_C5_no_credential_no_remote_call none rfl).1 (.ok [])

/-! ### C6 — the list-repositories tool fails open -/

/-- C6: with a working client, `list_my_repositories` never raises (its
return type is total): on a remote error it returns the single-element
list whose sole element is an error description starting with "Error",
and on success it returns the repositories' full names in order. -/
theorem claim_C6_list_repositories_fails_open
    (github_client env_pat : Option String) (tok : String)
    (hclient : GithubTools._ensure_client github_client env_pat = .ok tok) :
    (∀ e, (GithubTools.list_my_repositories github_client env_pat (.error e)).fst =
        ["Error listing repositories: " ++ e] ∧
      List.IsPrefix "Error".data ("Error listing repositories: " ++ e).data) ∧
    (∀ repos, (GithubTools.list_my_repositories github_client env_pat (.ok repos)).fst =
        repos.map (fun repo => repo.full_name)) := by
  constructor
  · intro e
    constructor
    · simp [GithubTools.list_my_repositories, hclient]
    · exact isPrefix_data_mono "Error" "Error listing repositories: " e (by decide)
  · intro repos
    simp [GithubTools.list_my_repositories, hclient]

/-- C6 witness: a concrete remote error yields the single-element error
list. -/
theorem claim_C6_witness :
    (GithubTools.list_my_repositories (some "token") none (.error "boom")).fst =
      ["Error listing repositories: " ++ "boom"] :=
  ((claim_C6_list_repositories_fails_open (some "token") none "token" rfl).1 "boom").1

/-! ### C7 — the create-pull-request tool's result string -/

/-- C7: with a working client, `create_pull_request` never raises (its
return type is total); on success its result contains the numeric PR
identifier and the PR's URL as substrings, and on any failure — the
repository lookup or the remote `create_pull` call failing, a head
branch that does not exist included — its result is the error string
"Error creating pull request: " followed by the failure description,
which starts with "Error creating pull request:". -/
theorem claim_C7_create_pull_request_result
    (github_client env_pat : Option String) (tok : String)
    (hclient : GithubTools._ensure_client github_client env_pat = .ok tok)
    (repo : GithubTools.Repo) (repo_name title body head_branch : String) :
    (∀ pr : GithubTools.PullRequest,
      List.IsInfix (toString pr.number).data
        (GithubTools.create_pull_request github_client env_pat (.ok repo) (.ok pr)
          repo_name title body head_branch).fst.data ∧
      List.IsInfix pr.html_url.data
        (GithubTools.create_pull_request github_client env_pat (.ok repo) (.ok pr)
          repo_name title body head_branch).fst.data) ∧
    (∀ e e',
      (GithubTools.create_pull_request github_client env_pat (.ok repo) (.error e)
        repo_name title body head_branch).fst = "Error creating pull request: " ++ e ∧
      (GithubTools.create_pull_request github_client env_pat (.error e') (.ok
        { number := 0, html_url := "" }) repo_name title body head_branch).fst =
        "Error creating pull request: " ++ e' ∧
      List.IsPrefix "Error creating pull request:".data
        ("Error creating pull request: " ++ e).data) := by
  constructor
  · intro pr
    have hfst : (GithubTools.create_pull_request github_client env_pat (.ok repo)
        (.ok pr) repo_name title body head_branch).fst =
        ("Successfully created Pull Request #" ++ toString pr.number) ++
          (": " ++ pr.html_url) := by
      simp [GithubTools.create_pull_request, hclient, String.append_assoc]
    rw [hfst]
    constructor
    · apply infix_data_append_left
      apply infix_data_append_right
      exact ⟨[], [], by simp⟩
    · apply infix_data_append_right
      apply infix_data_append_right
      exact ⟨[], [], by simp⟩
  · intro e e'
    refine ⟨?_, ?_, ?_⟩
    · simp [GithubTools.create_pull_request, hclient]
    · simp [GithubTools.create_pull_request, hclient]
    · exact isPrefix_data_mono "Error creating pull request:"
        "Error creating pull request: " e (by decide)

/-- C7 witness: a concrete successful call contains the PR number, and a
concrete failed call yields the error string. -/
theorem claim_C7_witness :
    List.IsInfix (toString (7 : Nat)).data
      (GithubTools.create_pull_request (some "token") none
        (.ok { full_name := "o/r", default_branch := "main", files := [], tree := [] })
        (.ok { number := 7, html_url := "https://github.com/o/r/pull/7" })
        "o/r" "t" "b" "feat/x").fst.data :=
  ((claim_C7_create_pull_request_result (some "token") none "token" rfl
    { full_name := "o/r", default_branch := "main", files := [], tree := [] }
    "o/r" "t" "b" "feat/x").1
    { number := 7, html_url := "https://github.com/o/r/pull/7" }).1

/-! ### C9 — a failed OAuth exchange never yields a usable session -/

/-- C9: when the token exchange returns no access token, the callback
still creates a store entry for the fresh session id (storing `None`),
and resolving that session fails as Unauthenticated — a failed exchange
never yields a usable session. -/
theorem claim_C9_callback_without_token
    (user_sessions : List (String × Option String)) (session_id : String)
    (hfresh : Api.sessions_contains user_sessions session_id = false) :
    Api.sessions_contains
      (Api.github_callback user_sessions session_id none).snd session_id = true ∧
    Api.get_github_client
      (Api.github_callback user_sessions session_id none).snd session_id =
      .error { status_code := 401, detail := "User not authenticated." } := by
  constructor
  · simp [Api.github_callback, Api.sessions_contains_set]
  · simp [Api.github_callback, Api.get_github_client, Api.sessions_get_set]

/-- C9 witness: the callback on the empty store with no access token. -/
theorem claim_C9_witness :
    Api.sessions_contains (Api.github_callback [] "fresh" none).snd "fresh" = true ∧
    Api.get_github_client (Api.github_callback [] "fresh" none).snd "fresh" =
      .error { status_code := 401, detail := "User not authenticated." } :=
  claim_C9_callback_without_token [] "fresh" rfl

/-! ### C10 — logout removes exactly the requested session -/

/-- C10: when the store contains the session id, logout reports status
"success", removes that id's entry, and leaves every other id's entry
unchanged; when the store does not contain it, logout reports status
"error" and returns the store entirely unchanged. -/
theorem claim_C10_logout_frame
    (user_sessions : List (String × Option String)) (session_id : String) :
    (Api.sessions_contains user_sessions session_id = true →
      (Api.logout user_sessions session_id).fst.status = "success" ∧
      Api.sessions_entry (Api.logout user_sessions session_id).snd session_id = none ∧
      (∀ k, k ≠ session_id →
        Api.sessions_entry (Api.logout user_sessions session_id).snd k =
          Api.sessions_entry user_sessions k)) ∧
    (Api.sessions_contains user_sessions session_id = false →
      (Api.logout user_sessions session_id).fst.status = "error" ∧
      (Api.logout user_sessions session_id).snd = user_sessions) := by
  constructor
  · intro h
    refine ⟨?_, ?_, ?_⟩
    · simp [Api.logout, h]
    · simp [Api.logout, h, Api.sessions_entry_del_self]
    · intro k hk
      simp [Api.logout, h, Api.sessions_entry_del_other _ _ _ hk]
  · intro h
    constructor
    · simp [Api.logout, h]
    · simp [Api.logout, h]

/-- C10 witness: logging out a present id at a concrete two-session
store reports success, and the other session's entry is untouched. -/
theorem claim_C10_witness :
    (Api.logout [("a", some "t"), ("b", none)] "a").fst.status = "success" ∧
    Api.sessions_entry (Api.logout [("a", some "t"), ("b", none)] "a").snd "a" = none :=
  ⟨((claim_C10_logout_frame [("a", some "t"), ("b", none)] "a").1 (by decide)).1,
   ((claim_C10_logout_frame [("a", some "t"), ("b", none)] "a").1 (by decide)).2.1⟩
